import Mathlib

/-!
Shallow embedding of `exoplanets/astro_data.py` and proofs about its
behaviour.

The module is a thin retrieval-and-caching wrapper: default-parameter
resolution (`get_default_params`), a single remote query
(`get_kepler_data`), a column rename pass (`rename_columns`), CSV
persistence (`record_dataframe`) and the cache-or-fetch entry point
(`read_kepler_data`).

Modelling choices:
 * the `columns` argument is Python's list-or-dict dual type, embedded as
   the inductive `Columns`; a Python dict is an association list (Python
   dicts are ordered and have distinct keys);
 * optional arguments (`None`) become `Option`; Python truthiness of the
   `columns` / `where` / `filename` arguments is made explicit
   (`None`, `[]`, `{}`, `""` are falsy);
 * the remote catalog (`NasaExoplanetArchive.query_criteria` followed by
   `.to_pandas()`) is an oracle `remote : Query → DataFrame`; the
   embedding additionally returns the list of queries issued, so that
   "the remote fetch is never invoked" is the trace being `[]`;
 * the filesystem is explicit state: a set of existing directories and a
   map from paths to file contents; paths are lists of components;
   `pandas.to_csv` fails when the parent directory does not exist and
   never creates directories, which the embedding reflects by returning
   `Except`;
 * a pandas DataFrame is a header (column names) plus rows of cell
   strings; CSV serialisation and parsing are embedded at character
   level so that the round-trip can be proved;
 * the module-level global `DEFAULT_PARAMS` is lambda-lifted into a
   `params` argument, and `AppState` packages the global table with the
   filesystem so that "never mutates the default table" is statable.
-/

namespace AstroData

/-- Python's list-or-dict `columns` argument: either a plain selection
list of column names, or an ordered mapping from remote column name to
display name. -/
inductive Columns where
  | list (names : List String)
  | dict (mapping : List (String × String))
deriving DecidableEq, Repr

/-- One value of the `DEFAULT_PARAMS` table: a column specification and an
optional `where` filter (the Python value may be `None`). -/
structure DefaultEntry where
  columns : Columns
  whereClause : Option String
deriving DecidableEq, Repr

/-- The type of the default-parameter table: table name to entry. -/
abbrev Params := List (String × DefaultEntry)

/-- The module-level `DEFAULT_PARAMS` dictionary of `astro_data.py`,
verbatim. -/
def DEFAULT_PARAMS : Params :=
  [("q1_q17_dr25_stellar",
    { columns := Columns.dict
        [("kepid", "KIC Identification Number"),
         ("tm_designation", "2MASS Designation"),
         ("ra", "RA Value [decimal degrees]"),
         ("dec", "Dec Value [decimal degrees]"),
         ("teff", "Stellar Effective Temperature Value [K]"),
         ("logg", "Stellar Surface Gravity Value [log10(cm/s**2)]"),
         ("feh", "Stellar Metallicity Value [dex]"),
         ("radius", "Stellar Radius Value [Solar radii]"),
         ("mass", "Stellar Mass Value [Solar mass]"),
         ("dens", "Stellar Density Value [g/cm**3]"),
         ("dist", "Distance Value [pc]"),
         ("av", "Av Extinction Value [mags]"),
         ("kepmag", "Kepler-band Magnitude Value [mag]"),
         ("nconfp", "Number of Associated Confirmed Planets"),
         ("nkoi", "Number of Associated KOIs"),
         ("ntce", "Number of Associated TCEs"),
         ("st_quarters", "Bits of Observed Quarters"),
         ("st_vet_date", "Vetting Status Date")],
      whereClause := some "st_quarters like \x27%1%\x27" }),
   ("cumulative",
    { columns := Columns.dict
        [("kepid", "KIC Identification Number"),
         ("kepoi_name", "KOI Name"),
         ("kepler_name", "Kepler Name"),
         ("ra", "RA Value [decimal degrees]"),
         ("dec", "Dec Value [decimal degrees]"),
         ("koi_disposition", "Exoplanet Archive Disposition"),
         ("koi_score", "Disposition Score"),
         ("koi_fpflag_nt", "Not Transit-Like Flag"),
         ("koi_fpflag_ss", "Stellar Eclipse Flag"),
         ("koi_fpflag_co", "Nearby Star Flag"),
         ("koi_fpflag_ec", "Contamination Flag"),
         ("koi_period", "Orbital Period (days)"),
         ("koi_time0bk", "Transit Epoch"),
         ("koi_time0", "Transit Epoch in BJD"),
         ("koi_eccen", "Eccentricity"),
         ("koi_duration", "Transit Duration (hours)"),
         ("koi_ingress", "Ingress Duration (hours)"),
         ("koi_depth", "Transit Depth (parts per million)"),
         ("koi_ror", "Planet-Star Radius Ratio"),
         ("koi_srho", "Fitted Stellar Density [g/cm*3]"),
         ("koi_prad", "Planetary Radius (Earth radii)"),
         ("koi_incl", "Inclination (deg)"),
         ("koi_teq", "Equilibrium Temperature (Kelvin)"),
         ("koi_dor", "Planet-Star Distance over Star Radius"),
         ("koi_model_snr", "Transit Signal-to-Noise"),
         ("koi_count", "Number of Planets"),
         ("koi_num_transits", "Number of Transits"),
         ("koi_tce_plnt_num", "TCE Planet Number"),
         ("koi_quarters", "Quarters"),
         ("koi_kepmag", "Kepler-band (mag)"),
         ("koi_vet_date", "Vetting Status Date")],
      whereClause := none })]

/-- Python truthiness of the `columns` argument: `None`, `[]` and `{}`
are falsy. -/
def truthyColumns : Option Columns → Bool
  | none => false
  | some (Columns.list l) => !l.isEmpty
  | some (Columns.dict m) => !m.isEmpty

/-- Python truthiness of the `where` argument: `None` and `""` are
falsy. -/
def truthyWhere : Option String → Bool
  | none => false
  | some s => !s.isEmpty

/-- Embedding of `get_default_params(table, columns, where)`. The Python
body reads the module global `DEFAULT_PARAMS`, here passed as `params`:
`if table in DEFAULT_PARAMS:` the entry's value replaces each argument
that is falsy (`columns = DEFAULT_PARAMS[table]["columns"] if not columns
else columns`, and likewise for `where`); otherwise both arguments pass
through unchanged. -/
def get_default_params (params : Params) (table : String)
    (columns : Option Columns) (whereq : Option String) :
    Option Columns × Option String :=
  match params.lookup table with
  | some entry =>
      (if truthyColumns columns then columns else some entry.columns,
       if truthyWhere whereq then whereq else entry.whereClause)
  | none => (columns, whereq)

/-- A single remote query issued to `NasaExoplanetArchive.query_criteria`:
the table name, the comma-joined `select` string and the `where` filter
passed through unmodified. -/
structure Query where
  table : String
  select : String
  whereClause : Option String
deriving DecidableEq, Repr

/-- An in-memory tabular result (pandas DataFrame): ordered column names
and rows of cell strings. -/
structure DataFrame where
  cols : List String
  rows : List (List String)
deriving DecidableEq, Repr

/-- The comma-joined select string of `get_kepler_data`: the elements of a
list spec, or the keys of a dict spec (`columns = [col for col in columns]`
followed by `",".join(columns)`). -/
def columnsToSelect : Columns → String
  | Columns.list l => String.intercalate "," l
  | Columns.dict m => String.intercalate "," (m.map Prod.fst)

/-- Embedding of `get_kepler_data(table, columns, where)`. When `columns`
is a dict, only its keys are selected; the one remote call is recorded in
the returned trace. A `None` `columns` makes Python's `",".join(columns)`
raise `TypeError` before any query is issued, embedded as `Except.error`.
The oracle `remote` stands for `query_criteria` composed with
`.to_pandas()`. -/
def get_kepler_data (remote : Query → DataFrame) (table : String)
    (columns : Option Columns) (whereq : Option String) :
    Except String (DataFrame × List Query) :=
  match columns with
  | none => Except.error "TypeError: can only join an iterable"
  | some cs =>
      let q : Query := ⟨table, columnsToSelect cs, whereq⟩
      Except.ok (remote q, [q])

/-- Embedding of `rename_columns(df, columns)`: `df.rename(columns=d)`
relabels every column that is a key of the dict to its value and leaves
the rest (and all cell values) unchanged; any non-dict spec returns the
DataFrame unmodified. -/
def rename_columns (df : DataFrame) (columns : Option Columns) : DataFrame :=
  match columns with
  | some (Columns.dict m) =>
      { df with cols := df.cols.map (fun c => (m.lookup c).getD c) }
  | _ => df

/-- Join character lists with a separator character (the character-level
core of `",".join` and of line assembly). -/
def joinWith (c : Char) : List (List Char) → List Char
  | [] => []
  | [x] => x
  | x :: y :: xs => x ++ c :: joinWith c (y :: xs)

/-- Split a character list at every occurrence of the separator; always
returns at least one (possibly empty) part. -/
def splitOnChar (c : Char) : List Char → List (List Char)
  | [] => [[]]
  | a :: rest =>
      match splitOnChar c rest with
      | [] => [[]]
      | h :: t => if a = c then [] :: h :: t else (a :: h) :: t

/-- Terminate every line with a newline character, as `to_csv` does. -/
def unlinesT (ls : List (List Char)) : List Char :=
  ls.foldr (fun l acc => l ++ '\n' :: acc) []

/-- One CSV line: the fields comma-joined. -/
def csvLine (fields : List String) : List Char :=
  joinWith ',' (fields.map String.data)

/-- Serialisation of `df.to_csv(filename, index=False)`: a header line of
column names followed by one line per row, each line newline-terminated,
fields comma-separated, and no index column. -/
def to_csv (df : DataFrame) : String :=
  String.mk (unlinesT (csvLine df.cols :: df.rows.map csvLine))

/-- Parsing of `pd.read_csv(filename)` on a well-formed cache file: split
into lines (blank lines skipped, as pandas does by default), the first
line is the header, every further line a row of comma-separated cells. -/
def read_csv (s : String) : DataFrame :=
  match (splitOnChar '\n' s.data).filter (fun l => !l.isEmpty) with
  | [] => ⟨[], []⟩
  | header :: body =>
      ⟨(splitOnChar ',' header).map String.mk,
       body.map (fun l => (splitOnChar ',' l).map String.mk)⟩

/-- A filesystem path, as its list of components. -/
abbrev Path := List String

/-- The filesystem state: the directories that exist and the contents of
the files that exist. -/
structure FS where
  dirs : List Path
  files : List (Path × String)
deriving DecidableEq, Repr

/-- Contents of the file at `p`, if it exists. -/
def getFile (files : List (Path × String)) (p : Path) : Option String :=
  files.lookup p

/-- Write (or overwrite) the file at `p`. -/
def setFile (files : List (Path × String)) (p : Path) (c : String) :
    List (Path × String) :=
  (p, c) :: files

/-- Whether the directory `d` exists (the empty path is the working
directory and always exists). -/
def dirExists (fs : FS) (d : Path) : Bool :=
  d.isEmpty || fs.dirs.contains d

/-- Python truthiness of the `filename` argument: `None` and `""` (the
empty path) are falsy. -/
def filenameTruthy : Option Path → Bool
  | none => false
  | some p => !p.isEmpty

/-- Embedding of `os.path.isfile(filename)`. -/
def fileExists (fs : FS) (f : Option Path) : Bool :=
  match f with
  | some p => (getFile fs.files p).isSome
  | none => false

/-- Embedding of `record_dataframe(df, filename)`: `if filename:
df.to_csv(filename, index=False)`. With a falsy filename nothing happens;
`to_csv` writes the serialised table, but raises `OSError` when the
parent directory does not exist (pandas does not create directories). -/
def record_dataframe (df : DataFrame) (filename : Option Path) (fs : FS) :
    Except String FS :=
  match filename with
  | none => Except.ok fs
  | some p =>
      if p.isEmpty then Except.ok fs
      else if dirExists fs p.dropLast then
        Except.ok { fs with files := setFile fs.files p (to_csv df) }
      else
        Except.error "OSError: cannot save file into a non-existent directory"

/-- Embedding of `read_kepler_data(table, columns, where, filename)`:
resolve defaults; if `filename` is falsy or no file exists there, fetch
remotely, convert to a DataFrame, rename columns and record the result;
otherwise read the DataFrame straight from the file. Returns the
DataFrame, the filesystem after the call and the trace of remote queries
issued. -/
def read_kepler_data (remote : Query → DataFrame) (params : Params)
    (table : String) (columns : Option Columns) (whereq : Option String)
    (filename : Option Path) (fs : FS) :
    Except String (DataFrame × FS × List Query) :=
  let cw := get_default_params params table columns whereq
  if !filenameTruthy filename || !fileExists fs filename then
    match get_kepler_data remote table cw.1 cw.2 with
    | Except.error e => Except.error e
    | Except.ok (kepler_data, qs) =>
        let df := rename_columns kepler_data cw.1
        match record_dataframe df filename fs with
        | Except.error e => Except.error e
        | Except.ok fs2 => Except.ok (df, fs2, qs)
  else
    match filename with
    | some p =>
        match getFile fs.files p with
        | some contents => Except.ok (read_csv contents, fs, [])
        | none => Except.error "unreachable: isfile was true"
    | none => Except.error "unreachable: filename was truthy"

/-- The whole observable state of the module: the global default table and
the filesystem. -/
structure AppState where
  params : Params
  fs : FS
deriving DecidableEq, Repr

/-- `get_default_params` as a state transformer on the module state. -/
def get_default_paramsS (table : String) (columns : Option Columns)
    (whereq : Option String) (s : AppState) :
    (Option Columns × Option String) × AppState :=
  (get_default_params s.params table columns whereq, s)

/-- `get_kepler_data` as a state transformer on the module state. -/
def get_kepler_dataS (remote : Query → DataFrame) (table : String)
    (columns : Option Columns) (whereq : Option String) (s : AppState) :
    Except String ((DataFrame × List Query) × AppState) :=
  (get_kepler_data remote table columns whereq).map (fun r => (r, s))

/-- `rename_columns` as a state transformer on the module state. -/
def rename_columnsS (df : DataFrame) (columns : Option Columns)
    (s : AppState) : DataFrame × AppState :=
  (rename_columns df columns, s)

/-- `record_dataframe` as a state transformer on the module state. -/
def record_dataframeS (df : DataFrame) (filename : Option Path)
    (s : AppState) : Except String AppState :=
  (record_dataframe df filename s.fs).map (fun fs2 => { s with fs := fs2 })

/-- `read_kepler_data` as a state transformer on the module state. -/
def read_kepler_dataS (remote : Query → DataFrame) (table : String)
    (columns : Option Columns) (whereq : Option String)
    (filename : Option Path) (s : AppState) :
    Except String ((DataFrame × List Query) × AppState) :=
  (read_kepler_data remote s.params table columns whereq filename s.fs).map
    (fun r => ((r.1, r.2.2), { s with fs := r.2.1 }))

/-- A field that serialises without quoting: non-empty, no comma, no
newline. -/
abbrev goodField (f : String) : Prop :=
  f.data ≠ [] ∧ ',' ∉ f.data ∧ '\n' ∉ f.data

theorem mk_data (s : String) : String.mk s.data = s := rfl

theorem splitOnChar_ne_nil (c : Char) (s : List Char) :
    splitOnChar c s ≠ [] := by
  induction s with
  | nil => simp [splitOnChar]
  | cons a rest ih =>
      simp only [splitOnChar]
      cases h : splitOnChar c rest with
      | nil => simp
      | cons hh tt => by_cases hac : a = c <;> simp [hac]

theorem splitOnChar_of_not_mem (c : Char) (s : List Char) (h : c ∉ s) :
    splitOnChar c s = [s] := by
  induction s with
  | nil => rfl
  | cons a rest ih =>
      have ha : a ≠ c := by
        rintro rfl; exact h (List.mem_cons_self a rest)
      have h' : c ∉ rest := fun hc => h (List.mem_cons_of_mem a hc)
      simp [splitOnChar, ih h', ha]

theorem splitOnChar_append_cons (c : Char) (x rest : List Char)
    (h : c ∉ x) :
    splitOnChar c (x ++ c :: rest) = x :: splitOnChar c rest := by
  induction x with
  | nil =>
      simp only [List.nil_append, splitOnChar]
      cases hsp : splitOnChar c rest with
      | nil => exact absurd hsp (splitOnChar_ne_nil c rest)
      | cons hh tt => simp
  | cons a x ih =>
      have ha : a ≠ c := by
        rintro rfl; exact h (List.mem_cons_self a x)
      have h' : c ∉ x := fun hc => h (List.mem_cons_of_mem a hc)
      simp only [List.cons_append, splitOnChar, List.append_eq, ih h', ha,
        if_false]

theorem splitOnChar_joinWith (c : Char) (parts : List (List Char))
    (hne : parts ≠ []) (hfree : ∀ p ∈ parts, c ∉ p) :
    splitOnChar c (joinWith c parts) = parts := by
  induction parts with
  | nil => cases hne rfl
  | cons x xs ih =>
      cases xs with
      | nil =>
          simp [joinWith, splitOnChar_of_not_mem c x (hfree x (by simp))]
      | cons y ys =>
          have hx : c ∉ x := hfree x (by simp)
          show splitOnChar c (x ++ c :: joinWith c (y :: ys)) = _
          rw [splitOnChar_append_cons c x _ hx,
            ih (by simp) (fun p hp => hfree p (List.mem_cons_of_mem x hp))]

theorem mem_joinWith (c a : Char) (parts : List (List Char))
    (h : a ∈ joinWith c parts) : a = c ∨ ∃ p ∈ parts, a ∈ p := by
  induction parts with
  | nil => simp [joinWith] at h
  | cons x xs ih =>
      cases xs with
      | nil =>
          exact Or.inr ⟨x, by simp, h⟩
      | cons y ys =>
          have h' : a ∈ x ++ c :: joinWith c (y :: ys) := h
          rcases List.mem_append.mp h' with hx | hx
          · exact Or.inr ⟨x, by simp, hx⟩
          · rcases List.mem_cons.mp hx with rfl | hx
            · exact Or.inl rfl
            · rcases ih hx with h'' | ⟨p, hp, hap⟩
              · exact Or.inl h''
              · exact Or.inr ⟨p, List.mem_cons_of_mem x hp, hap⟩

theorem joinWith_ne_nil (c : Char) (parts : List (List Char))
    (hne : parts ≠ []) (h : ∀ p ∈ parts, p ≠ []) :
    joinWith c parts ≠ [] := by
  cases parts with
  | nil => cases hne rfl
  | cons x xs =>
      cases xs with
      | nil => exact h x (by simp)
      | cons y ys => simp [joinWith]

theorem splitOnChar_unlinesT (ls : List (List Char))
    (hfree : ∀ l ∈ ls, '\n' ∉ l) :
    splitOnChar '\n' (unlinesT ls) = ls ++ [[]] := by
  induction ls with
  | nil => rfl
  | cons l ls ih =>
      have hl : '\n' ∉ l := hfree l (by simp)
      show splitOnChar '\n' (l ++ '\n' :: unlinesT ls) = (l :: ls) ++ [[]]
      rw [splitOnChar_append_cons _ _ _ hl,
        ih (fun l' h' => hfree l' (List.mem_cons_of_mem l h'))]
      rfl

theorem csvLine_ne_nil (fields : List String) (h1 : fields ≠ [])
    (h2 : ∀ f ∈ fields, f.data ≠ []) : csvLine fields ≠ [] := by
  refine joinWith_ne_nil ',' _ (by simpa using h1) ?_
  intro p hp
  rcases List.mem_map.mp hp with ⟨f, hf, rfl⟩
  exact h2 f hf

theorem newline_not_mem_csvLine (fields : List String)
    (h : ∀ f ∈ fields, '\n' ∉ f.data) : '\n' ∉ csvLine fields := by
  intro hmem
  rcases mem_joinWith ',' '\n' _ hmem with h' | ⟨p, hp, hnp⟩
  · exact absurd h' (by decide)
  · rcases List.mem_map.mp hp with ⟨f, hf, rfl⟩
    exact h f hf hnp

theorem splitOnChar_csvLine (fields : List String) (h1 : fields ≠ [])
    (h2 : ∀ f ∈ fields, ',' ∉ f.data) :
    (splitOnChar ',' (csvLine fields)).map String.mk = fields := by
  rw [csvLine, splitOnChar_joinWith ',' _ (by simpa using h1)
    (by intro p hp
        rcases List.mem_map.mp hp with ⟨f, hf, rfl⟩
        exact h2 f hf)]
  rw [List.map_map]
  have hcomp : String.mk ∘ String.data = id := funext mk_data
  rw [hcomp, List.map_id]

/-- Claim C1: when `filename` is truthy and a file already exists at that
path, `read_kepler_data` returns exactly the contents loaded from that
file, the remote fetch is never invoked (empty query trace), no rename is
applied to the loaded table, and no write occurs (the filesystem is
returned unchanged) — regardless of the `table`, `columns` and `where`
arguments (and of the default table). -/
theorem read_kepler_data_cache_hit (remote : Query → DataFrame)
    (params : Params) (table : String) (columns : Option Columns)
    (whereq : Option String) (p : Path) (contents : String) (fs : FS)
    (hp : p ≠ []) (hfile : getFile fs.files p = some contents) :
    read_kepler_data remote params table columns whereq (some p) fs =
      Except.ok (read_csv contents, fs, []) := by
  have h1 : (!filenameTruthy (some p) || !fileExists fs (some p)) = false := by
    simp [filenameTruthy, fileExists, hfile, List.isEmpty_iff, hp]
  unfold read_kepler_data
  rw [h1]
  simp [hfile]

/-- Witness for C1: a concrete cache hit on file `d/cache.csv` holding
`A\n1\n2\n3\n`, with differing `columns`/`where` supplied, returns the
parsed file contents, leaves the filesystem unchanged and issues no
query. -/
theorem read_kepler_data_cache_hit_check :
    read_kepler_data (fun _ => ⟨[], []⟩) DEFAULT_PARAMS
        "q1_q17_dr25_stellar" (some (Columns.list ["kepid"]))
        (some "kepid=12345") (some ["d", "cache.csv"])
        ⟨[["d"]], [(["d", "cache.csv"], "A\n1\n2\n3\n")]⟩ =
      Except.ok (read_csv "A\n1\n2\n3\n",
        ⟨[["d"]], [(["d", "cache.csv"], "A\n1\n2\n3\n")]⟩, []) ∧
    read_csv "A\n1\n2\n3\n" = ⟨["A"], [["1"], ["2"], ["3"]]⟩ :=
  ⟨read_kepler_data_cache_hit (fun _ => ⟨[], []⟩) DEFAULT_PARAMS
      "q1_q17_dr25_stellar" (some (Columns.list ["kepid"]))
      (some "kepid=12345") ["d", "cache.csv"] "A\n1\n2\n3\n"
      ⟨[["d"]], [(["d", "cache.csv"], "A\n1\n2\n3\n")]⟩ (by decide) rfl,
   by decide⟩

/-- Claim C2: for a table with an entry in the default table,
`get_default_params` returns the caller's `columns` if truthy and
otherwise the default column spec, and the caller's `where` if truthy and
otherwise the default filter; for a table with no entry both arguments
pass through unchanged; the function is total, so no error is raised. -/
theorem get_default_params_resolution (table : String)
    (columns : Option Columns) (whereq : Option String) :
    (∀ e, DEFAULT_PARAMS.lookup table = some e →
        get_default_params DEFAULT_PARAMS table columns whereq =
          ((if truthyColumns columns then columns else some e.columns),
           (if truthyWhere whereq then whereq else e.whereClause))) ∧
    (DEFAULT_PARAMS.lookup table = none →
        get_default_params DEFAULT_PARAMS table columns whereq =
          (columns, whereq)) := by
  constructor
  · intro e he
    simp [get_default_params, he]
  · intro he
    simp [get_default_params, he]

/-- Witness for C2: explicit `columns`/`where` pass through unchanged for
a configured table, and an unknown table passes through the caller's
values. -/
theorem get_default_params_resolution_check :
    get_default_params DEFAULT_PARAMS "q1_q17_dr25_stellar"
        (some (Columns.list ["col1", "col2"])) (some "kepid=12345") =
      (some (Columns.list ["col1", "col2"]), some "kepid=12345") ∧
    get_default_params DEFAULT_PARAMS "nonexistent_table"
        none (some "kepid=12345") = (none, some "kepid=12345") :=
  ⟨by
    have h := (get_default_params_resolution "q1_q17_dr25_stellar"
      (some (Columns.list ["col1", "col2"])) (some "kepid=12345")).1 _ rfl
    simpa using h,
   (get_default_params_resolution "nonexistent_table"
      none (some "kepid=12345")).2 rfl⟩

/-- Counterexample to claim C3 as stated: `record_dataframe` does not
create a missing parent directory before writing — `if filename:
df.to_csv(filename, index=False)` is its whole body, and `to_csv` fails
when the directory is absent. At the concrete input (path
`d/data.csv`, empty filesystem) there is no successful result with the
parent directory created. -/
theorem record_dataframe_no_mkdir :
    ¬ ∃ fs2, record_dataframe ⟨["A"], [["1"]]⟩ (some ["d", "data.csv"])
        ⟨[], []⟩ = Except.ok fs2 ∧ ["d"] ∈ fs2.dirs := by
  rintro ⟨fs2, h, -⟩
  simp [record_dataframe, dirExists] at h

/-- Claim C3 (amended): with a truthy destination path whose parent
directory exists, `record_dataframe` writes the serialised table to that
path (creating no directory); with a truthy path whose parent directory
does not exist, the write fails and nothing is created; with an absent
(falsy) path, it performs no write at all. -/
theorem record_dataframe_spec (df : DataFrame) (f : Option Path) (fs : FS) :
    (filenameTruthy f = false → record_dataframe df f fs = Except.ok fs) ∧
    (∀ p, f = some p → p ≠ [] → dirExists fs p.dropLast = true →
        record_dataframe df f fs =
          Except.ok ⟨fs.dirs, setFile fs.files p (to_csv df)⟩) ∧
    (∀ p, f = some p → p ≠ [] → dirExists fs p.dropLast = false →
        record_dataframe df f fs = Except.error
          "OSError: cannot save file into a non-existent directory") := by
  refine ⟨?_, ?_, ?_⟩
  · intro h
    cases f with
    | none => rfl
    | some p =>
        have hpe : p.isEmpty = true := by simpa [filenameTruthy] using h
        simp [record_dataframe, hpe]
  · rintro p rfl hp hdir
    have hpe : p.isEmpty = false := by simpa [List.isEmpty_iff] using hp
    simp [record_dataframe, hpe, hdir]
  · rintro p rfl hp hdir
    have hpe : p.isEmpty = false := by simpa [List.isEmpty_iff] using hp
    simp [record_dataframe, hpe, hdir]

/-- Witness for C3 (amended): a concrete write into the working directory
succeeds and stores the CSV text, and a `None` filename is a no-op. -/
theorem record_dataframe_spec_check :
    record_dataframe ⟨["A"], [["1"], ["2"], ["3"]]⟩ (some ["out.csv"])
        ⟨[], []⟩ =
      Except.ok ⟨[], [(["out.csv"], "A\n1\n2\n3\n")]⟩ ∧
    record_dataframe ⟨["A"], [["1"]]⟩ none ⟨[], []⟩ = Except.ok ⟨[], []⟩ :=
  ⟨by
    have h := (record_dataframe_spec ⟨["A"], [["1"], ["2"], ["3"]]⟩
      (some ["out.csv"]) ⟨[], []⟩).2.1 ["out.csv"] rfl (by decide) rfl
    simpa using h,
   (record_dataframe_spec ⟨["A"], [["1"]]⟩ none ⟨[], []⟩).1 rfl⟩

/-- Claim C4: with a mapping spec, `rename_columns` renames each column
whose name is a key of the mapping to the mapped value, leaves columns
not in the mapping unchanged (positionally, via the lookup-with-default),
and preserves all cell values; with a sequence spec the table is returned
unmodified. -/
theorem rename_columns_spec (df : DataFrame) (m : List (String × String))
    (l : List String) :
    (rename_columns df (some (Columns.dict m))).rows = df.rows ∧
    (∀ i : Nat, (rename_columns df (some (Columns.dict m))).cols[i]? =
        (df.cols[i]?).map (fun c => (m.lookup c).getD c)) ∧
    rename_columns df (some (Columns.list l)) = df := by
  refine ⟨rfl, ?_, rfl⟩
  intro i
  simp [rename_columns, List.getElem?_map]

/-- Claim C5: with a falsy `filename`, `read_kepler_data` performs a
fresh remote fetch (the query trace is exactly one query), applies the
rename pass to its result, reads no file (the result does not depend on
the filesystem contents) and writes no file (the filesystem is returned
unchanged). Stated for invocations where the resolved column spec is
present, since Python's `",".join(None)` would raise before fetching. -/
theorem read_kepler_data_no_filename (remote : Query → DataFrame)
    (params : Params) (table : String) (columns : Option Columns)
    (whereq : Option String) (fs : FS) (cs : Columns)
    (hcs : (get_default_params params table columns whereq).1 = some cs) :
    read_kepler_data remote params table columns whereq none fs =
      Except.ok
        (rename_columns
            (remote ⟨table, columnsToSelect cs,
              (get_default_params params table columns whereq).2⟩)
            (some cs),
          fs,
          [⟨table, columnsToSelect cs,
            (get_default_params params table columns whereq).2⟩]) := by
  unfold read_kepler_data
  simp only [filenameTruthy, Bool.not_false, Bool.true_or, if_true, hcs,
    get_kepler_data, record_dataframe]

/-- Witness for C5: a concrete fetch with no filename returns the remote
result, issues one query and leaves the (empty) filesystem unchanged. -/
theorem read_kepler_data_no_filename_check :
    read_kepler_data (fun _ => ⟨["kepid"], [["1"]]⟩) DEFAULT_PARAMS
        "mytable" (some (Columns.list ["kepid"])) none none ⟨[], []⟩ =
      Except.ok (⟨["kepid"], [["1"]]⟩, ⟨[], []⟩,
        [⟨"mytable", "kepid", none⟩]) := by
  have h := read_kepler_data_no_filename (fun _ => ⟨["kepid"], [["1"]]⟩)
    DEFAULT_PARAMS "mytable" (some (Columns.list ["kepid"])) none ⟨[], []⟩
    (Columns.list ["kepid"]) rfl
  simpa [columnsToSelect, rename_columns] using h

/-- Claim C6: `get_kepler_data` issues exactly one remote query; its
select string is the comma-joined elements when `columns` is a sequence
and the comma-joined keys (values excluded) when `columns` is a mapping,
and `where` is passed through to the query unmodified. -/
theorem get_kepler_data_single_query (remote : Query → DataFrame)
    (table : String) (whereq : Option String) (l : List String)
    (m : List (String × String)) :
    get_kepler_data remote table (some (Columns.list l)) whereq =
      Except.ok (remote ⟨table, String.intercalate "," l, whereq⟩,
        [⟨table, String.intercalate "," l, whereq⟩]) ∧
    get_kepler_data remote table (some (Columns.dict m)) whereq =
      Except.ok (remote ⟨table, String.intercalate "," (m.map Prod.fst),
          whereq⟩,
        [⟨table, String.intercalate "," (m.map Prod.fst), whereq⟩]) :=
  ⟨rfl, rfl⟩

/-- Claim C7: persisting a table and reading the file back round-trips
the exact header and row values with no added index column, for every
table whose fields serialise without quoting (non-empty, comma-free,
newline-free) and whose rows are non-empty. -/
theorem csv_roundtrip (df : DataFrame)
    (hc : df.cols ≠ [])
    (hcf : ∀ f ∈ df.cols, goodField f)
    (hr : ∀ r ∈ df.rows, r ≠ [] ∧ ∀ f ∈ r, goodField f) :
    read_csv (to_csv df) = df := by
  have hlines_free : ∀ l ∈ csvLine df.cols :: df.rows.map csvLine,
      '\n' ∉ l := by
    intro l hl
    rcases List.mem_cons.mp hl with rfl | hl
    · exact newline_not_mem_csvLine _ (fun f hf => (hcf f hf).2.2)
    · rcases List.mem_map.mp hl with ⟨r, hrr, rfl⟩
      exact newline_not_mem_csvLine _ (fun f hf => ((hr r hrr).2 f hf).2.2)
  have hlines_ne : ∀ l ∈ csvLine df.cols :: df.rows.map csvLine,
      (!l.isEmpty) = true := by
    intro l hl
    rcases List.mem_cons.mp hl with rfl | hl
    · simpa [List.isEmpty_iff] using
        csvLine_ne_nil _ hc (fun f hf => (hcf f hf).1)
    · rcases List.mem_map.mp hl with ⟨r, hrr, rfl⟩
      simpa [List.isEmpty_iff] using
        csvLine_ne_nil _ (hr r hrr).1 (fun f hf => ((hr r hrr).2 f hf).1)
  have key : (splitOnChar '\n' (to_csv df).data).filter
      (fun l => !l.isEmpty) = csvLine df.cols :: df.rows.map csvLine := by
    show (splitOnChar '\n'
        (unlinesT (csvLine df.cols :: df.rows.map csvLine))).filter
        (fun l => !l.isEmpty) = _
    rw [splitOnChar_unlinesT _ hlines_free, List.filter_append,
      List.filter_eq_self.mpr hlines_ne]
    simp [List.filter]
  unfold read_csv
  rw [key]
  have hcols : (splitOnChar ',' (csvLine df.cols)).map String.mk = df.cols :=
    splitOnChar_csvLine df.cols hc (fun f hf => (hcf f hf).2.1)
  have hrows : (df.rows.map csvLine).map
      (fun l => (splitOnChar ',' l).map String.mk) = df.rows := by
    rw [List.map_map]
    have : ∀ r ∈ df.rows,
        ((fun l => (splitOnChar ',' l).map String.mk) ∘ csvLine) r =
          id r := by
      intro r hrr
      exact splitOnChar_csvLine r (hr r hrr).1
        (fun f hf => ((hr r hrr).2 f hf).2.1)
    rw [List.map_congr_left this, List.map_id]
  cases df with
  | mk cols rows =>
      simp only at hcols hrows
      simp [hcols, hrows]

/-- Witness for C7: the single-column table `A` with values `1, 2, 3`
round-trips, and its serialisation is a header line followed by a
three-line body with no index column. -/
theorem csv_roundtrip_check :
    read_csv (to_csv ⟨["A"], [["1"], ["2"], ["3"]]⟩) =
      (⟨["A"], [["1"], ["2"], ["3"]]⟩ : DataFrame) ∧
    to_csv ⟨["A"], [["1"], ["2"], ["3"]]⟩ = "A\n1\n2\n3\n" :=
  ⟨csv_roundtrip ⟨["A"], [["1"], ["2"], ["3"]]⟩ (by decide) (by decide)
      (by decide),
   by decide⟩

/-- Claim C8: on the cache-miss path with a writable destination,
`rename_columns` is applied before `record_dataframe`, so the persisted
file is the serialisation of the renamed table — its header carries the
display names, not the remote names. -/
theorem read_kepler_data_rename_before_persist
    (remote : Query → DataFrame) (params : Params) (table : String)
    (columns : Option Columns) (whereq : Option String) (p : Path)
    (fs : FS) (cs : Columns)
    (hp : p ≠ [])
    (hmiss : getFile fs.files p = none)
    (hdir : dirExists fs p.dropLast = true)
    (hcs : (get_default_params params table columns whereq).1 = some cs) :
    read_kepler_data remote params table columns whereq (some p) fs =
      Except.ok
        (rename_columns (remote ⟨table, columnsToSelect cs,
            (get_default_params params table columns whereq).2⟩) (some cs),
         ⟨fs.dirs, setFile fs.files p (to_csv (rename_columns
            (remote ⟨table, columnsToSelect cs,
              (get_default_params params table columns whereq).2⟩)
            (some cs)))⟩,
         [⟨table, columnsToSelect cs,
            (get_default_params params table columns whereq).2⟩]) := by
  have h1 : (!filenameTruthy (some p) || !fileExists fs (some p)) = true := by
    simp [fileExists, hmiss]
  unfold read_kepler_data
  rw [h1]
  simp only [hcs, get_kepler_data, record_dataframe, if_true]
  have hpe : p.isEmpty = false := by simpa [List.isEmpty_iff] using hp
  simp [hpe, hdir]

/-- Witness for C8: fetching `kepid=8113154` with the column spec
`{"kepid": "Kepler ID"}` persists a file whose full contents are the
header `Kepler ID` followed by the single data row `8113154`. -/
theorem read_kepler_data_rename_before_persist_check :
    read_kepler_data (fun _ => ⟨["kepid"], [["8113154"]]⟩) DEFAULT_PARAMS
        "q1_q17_dr25_stellar"
        (some (Columns.dict [("kepid", "Kepler ID")]))
        (some "kepid=8113154") (some ["kepler.csv"]) ⟨[], []⟩ =
      Except.ok (⟨["Kepler ID"], [["8113154"]]⟩,
        ⟨[], [(["kepler.csv"], "Kepler ID\n8113154\n")]⟩,
        [⟨"q1_q17_dr25_stellar", "kepid", some "kepid=8113154"⟩]) ∧
    to_csv ⟨["Kepler ID"], [["8113154"]]⟩ = "Kepler ID\n8113154\n" := by
  have h := read_kepler_data_rename_before_persist
    (fun _ => ⟨["kepid"], [["8113154"]]⟩) DEFAULT_PARAMS
    "q1_q17_dr25_stellar" (some (Columns.dict [("kepid", "Kepler ID")]))
    (some "kepid=8113154") ["kepler.csv"] ⟨[], []⟩
    (Columns.dict [("kepid", "Kepler ID")]) (by decide) rfl rfl rfl
  refine ⟨?_, by decide⟩
  have hdf : rename_columns ⟨["kepid"], [["8113154"]]⟩
      (some (Columns.dict [("kepid", "Kepler ID")])) =
      ⟨["Kepler ID"], [["8113154"]]⟩ := by decide
  have hcsv : to_csv (⟨["Kepler ID"], [["8113154"]]⟩ : DataFrame) =
      "Kepler ID\n8113154\n" := by decide
  simpa [columnsToSelect, hdf, hcsv, setFile] using h

/-- Claim C9: no public operation mutates the default-parameter table:
for every invocation of `get_default_params`, `get_kepler_data`,
`rename_columns`, `record_dataframe` or `read_kepler_data` over the
module state, the `params` component of the state after the call is the
one before the call. -/
theorem default_params_never_mutated (remote : Query → DataFrame)
    (table : String) (columns : Option Columns) (whereq : Option String)
    (df : DataFrame) (filename : Option Path) (s : AppState) :
    (get_default_paramsS table columns whereq s).2.params = s.params ∧
    (∀ r s2, get_kepler_dataS remote table columns whereq s =
        Except.ok (r, s2) → s2.params = s.params) ∧
    (rename_columnsS df columns s).2.params = s.params ∧
    (∀ s2, record_dataframeS df filename s = Except.ok s2 →
        s2.params = s.params) ∧
    (∀ r s2, read_kepler_dataS remote table columns whereq filename s =
        Except.ok (r, s2) → s2.params = s.params) := by
  refine ⟨rfl, ?_, rfl, ?_, ?_⟩
  · intro r s2 h
    cases hg : get_kepler_data remote table columns whereq with
    | error e => simp [get_kepler_dataS, hg, Except.map] at h
    | ok v =>
        simp [get_kepler_dataS, hg, Except.map] at h
        rcases h with ⟨-, rfl⟩
        rfl
  · intro s2 h
    cases hg : record_dataframe df filename s.fs with
    | error e => simp [record_dataframeS, hg, Except.map] at h
    | ok fs2 =>
        simp [record_dataframeS, hg, Except.map] at h
        subst h
        rfl
  · intro r s2 h
    cases hg : read_kepler_data remote s.params table columns whereq
        filename s.fs with
    | error e => simp [read_kepler_dataS, hg, Except.map] at h
    | ok v =>
        simp [read_kepler_dataS, hg, Except.map] at h
        rcases h with ⟨-, rfl⟩
        rfl

/-- Witness for C9: a concrete full `read_kepler_data` run (a cache hit)
leaves the default table of the state exactly `DEFAULT_PARAMS`. -/
theorem default_params_never_mutated_check :
    (AppState.mk DEFAULT_PARAMS
        ⟨[["d"]], [(["d", "f.csv"], "A\n1\n")]⟩).params = DEFAULT_PARAMS :=
  (default_params_never_mutated (fun _ => ⟨[], []⟩) "t"
      (some (Columns.list ["kepid"])) none ⟨[], []⟩ (some ["d", "f.csv"])
      ⟨DEFAULT_PARAMS, ⟨[["d"]], [(["d", "f.csv"], "A\n1\n")]⟩⟩).2.2.2.2
    (read_csv "A\n1\n", []) _ rfl

/-- Claim C10: for a table with an entry in the default table,
`get_default_params` does not distinguish explicitly-empty from absent
caller values: an explicit empty column list, empty column mapping or
empty filter string is replaced by the configured defaults, exactly as
`None` is. -/
theorem get_default_params_empty_as_absent (table : String)
    (e : DefaultEntry) (h : DEFAULT_PARAMS.lookup table = some e) :
    get_default_params DEFAULT_PARAMS table (some (Columns.list []))
        (some "") = (some e.columns, e.whereClause) ∧
    get_default_params DEFAULT_PARAMS table (some (Columns.dict []))
        (some "") = (some e.columns, e.whereClause) ∧
    get_default_params DEFAULT_PARAMS table none none =
      (some e.columns, e.whereClause) := by
  have he : "".isEmpty = true := by decide
  refine ⟨?_, ?_, ?_⟩ <;>
    simp [get_default_params, h, truthyColumns, truthyWhere, he]

/-- Witness for C10: for the `cumulative` table, an explicitly empty
column list and filter produce the very same resolution as absent
arguments. -/
theorem get_default_params_empty_as_absent_check :
    get_default_params DEFAULT_PARAMS "cumulative" (some (Columns.list []))
        (some "") =
      get_default_params DEFAULT_PARAMS "cumulative" none none := by
  have h := get_default_params_empty_as_absent "cumulative" _ rfl
  rw [h.1, h.2.2]

end AstroData
